import Mathlib

/-!
# Verification of the agent-c-signaling-server connection registry

Shallow embedding of the WebSocket registry and signal-routing logic of the
repository, which ships two variants of the server:

* the standalone variant (`src/server.js`): a global `clients : Map` from
  id strings to sockets; every accepted connection is immediately bound under
  a temporary id `Date.now().toString()` and told about it via a `connected`
  message; `register` deletes the connection's temporary id and binds the
  requested agent id; the `close` handler linearly scans the map and deletes
  the first entry whose socket is the closing one;
* the database variant (`src/unnamed/part_000`): a global
  `activeConnections : Map`; a per-connection variable `connectedAgentId`
  remembers the last registered id; `register` just sets the map entry;
  the `close` handler unconditionally deletes the entry for
  `connectedAgentId`; an unroutable `signal` is only logged (no error reply).
  The Supabase profile-store calls are external collaborators (spec section
  six) and are not part of the routing state, so they are not modelled.

JavaScript `Map`s are modelled as association lists with insertion-order
semantics: `set` overwrites the first (unique) occurrence in place or appends,
`delete` removes the key, iteration is list order.  Sockets are identified by
natural numbers; `readyState === WebSocket.OPEN` is modelled by membership in
an `openConns` list.  Message payloads are opaque strings.
-/

namespace Signaling

/-- JavaScript `Map.set m k v`: overwrite the entry for `k` in place if
present, otherwise append `(k, v)` at the end (insertion order). -/
def jsSet {α β : Type} [DecidableEq α] : List (α × β) → α → β → List (α × β)
  | [], k, v => [(k, v)]
  | (k0, v0) :: rest, k, v =>
    if k0 = k then (k, v) :: rest else (k0, v0) :: jsSet rest k v

/-- JavaScript `Map.get m k`: the value bound to `k`, if any. -/
def jsGet {α β : Type} [DecidableEq α] : List (α × β) → α → Option β
  | [], _ => none
  | (k0, v0) :: rest, k => if k0 = k then some v0 else jsGet rest k

/-- JavaScript `Map.delete m k`: remove the entry for `k` (a `Map` holds at
most one entry per key, so removing every occurrence is the same operation). -/
def jsDelete {α β : Type} [DecidableEq α] : List (α × β) → α → List (α × β)
  | [], _ => []
  | (k0, v0) :: rest, k =>
    if k0 = k then jsDelete rest k else (k0, v0) :: jsDelete rest k

/-- The `for (let [id, socket] of clients.entries()) { if (socket === ws)
{ clients.delete(id); break; } }` loop of the standalone close handler:
remove the first entry (in insertion order) whose value is `c`. -/
def eraseFirstByValue {α β : Type} [DecidableEq β] : List (α × β) → β → List (α × β)
  | [], _ => []
  | (k0, v0) :: rest, c =>
    if v0 = c then rest else (k0, v0) :: eraseFirstByValue rest c

/-- Inbound messages after `JSON.parse`, by their `type` tag.  The standalone
variant reads the fields `agentId`, `target`, `from`, `signal`; the database
variant reads `agentId`, `targetAgentId`, `fromAgentId`, `signal` — the
shapes coincide.  `other` stands for a frame with an unknown `type` (the
`switch` has no matching case).  An unparsable frame is `Option.none` at the
call site (the `JSON.parse` exception is swallowed by the `try`/`catch`). -/
inductive Msg : Type where
  | register (agentId : String)
  | signal (target : String) (fromId : String) (payload : String)
  | ping
  | other
  deriving DecidableEq, Repr

/-- Outbound messages (`ws.send(JSON.stringify({...}))`), by their `type`
tag, keeping the fields the routing logic computes; constant human-readable
`message` strings are dropped. -/
inductive OutMsg : Type where
  | connected (clientId : String)
  | registeredOk (agentId : String)
  | signalFwd (fromId : String) (payload : String)
  | errorReply
  | pong
  deriving DecidableEq, Repr

/-- Shared mutable state of the standalone variant (`src/server.js`): the
global `clients` map plus the set of sockets whose `readyState` is `OPEN`. -/
structure SrvState : Type where
  clients : List (String × Nat)
  openConns : List Nat
  deriving DecidableEq, Repr

/-- Shared mutable state of the database variant (`src/unnamed/part_000`):
the global `activeConnections` map plus the set of open sockets. -/
structure DbState : Type where
  activeConnections : List (String × Nat)
  openConns : List Nat
  deriving DecidableEq, Repr

/-- `Date.now().toString()`: the temporary client id the standalone variant
assigns at accept time, derived from the current clock value alone. -/
def clientIdOf (now : Nat) : String := toString now

/-- Standalone variant, `wss.on('connection')` (src/server.js lines 34-46):
assign the temporary id, bind it in `clients`, and send the new socket a
single `connected` message carrying that id.  Returns the new state and the
list of `(destination socket, message)` sends. -/
def srvOnConnect (s : SrvState) (ws : Nat) (now : Nat) :
    SrvState × List (Nat × OutMsg) :=
  let clientId := clientIdOf now
  ({ clients := jsSet s.clients clientId ws, openConns := ws :: s.openConns },
   [(ws, OutMsg.connected clientId)])

/-- Standalone variant, `ws.on('message')` (src/server.js lines 49-94).
`clientId` is the connection's temporary id, a per-connection constant
captured by the handler closure.  `none` is an unparsable frame. -/
def srvOnMessage (s : SrvState) (ws : Nat) (clientId : String)
    (m : Option Msg) : SrvState × List (Nat × OutMsg) :=
  match m with
  | none => (s, [])
  | some (Msg.register agentId) =>
    -- const oldId = clientId; clients.delete(oldId); clients.set(message.agentId, ws)
    ({ s with clients := jsSet (jsDelete s.clients clientId) agentId ws },
     [(ws, OutMsg.registeredOk agentId)])
  | some (Msg.signal target fromId payload) =>
    match jsGet s.clients target with
    | some targetWs =>
      if s.openConns.contains targetWs then
        (s, [(targetWs, OutMsg.signalFwd fromId payload)])
      else
        (s, [(ws, OutMsg.errorReply)])
    | none => (s, [(ws, OutMsg.errorReply)])
  | some Msg.ping => (s, [(ws, OutMsg.pong)])
  | some Msg.other => (s, [])

/-- Standalone variant, `ws.on('close')` (src/server.js lines 97-106): the
socket leaves the `OPEN` state and the first map entry holding this socket
(if any) is deleted by the linear scan. -/
def srvOnClose (s : SrvState) (ws : Nat) : SrvState :=
  { clients := eraseFirstByValue s.clients ws,
    openConns := s.openConns.filter (fun c => c ≠ ws) }

/-- Database variant, `ws.on('message')` (src/unnamed/part_000 lines 35-86).
`sess` is the per-connection `connectedAgentId` variable before the message;
the middle component of the result is its value afterwards.  The Supabase
status update is external and not modelled.  Note the unroutable-signal
branch only logs: no reply is sent. -/
def dbOnMessage (s : DbState) (ws : Nat) (sess : Option String)
    (m : Option Msg) : DbState × Option String × List (Nat × OutMsg) :=
  match m with
  | none => (s, sess, [])
  | some (Msg.register agentId) =>
    ({ s with activeConnections := jsSet s.activeConnections agentId ws },
     some agentId, [(ws, OutMsg.registeredOk agentId)])
  | some (Msg.signal target fromId payload) =>
    match jsGet s.activeConnections target with
    | some targetWs =>
      if s.openConns.contains targetWs then
        (s, sess, [(targetWs, OutMsg.signalFwd fromId payload)])
      else
        (s, sess, [])
    | none => (s, sess, [])
  | some Msg.ping => (s, sess, [(ws, OutMsg.pong)])
  | some Msg.other => (s, sess, [])

/-- Database variant, `ws.on('close')` (src/unnamed/part_000 lines 88-102):
the socket leaves the `OPEN` state and, if `connectedAgentId` is set, its
entry is deleted from `activeConnections` unconditionally — regardless of
which socket the entry currently holds. -/
def dbOnClose (s : DbState) (ws : Nat) (sess : Option String) : DbState :=
  let s1 : DbState := { s with openConns := s.openConns.filter (fun c => c ≠ ws) }
  match sess with
  | some agentId =>
    { s1 with activeConnections := jsDelete s1.activeConnections agentId }
  | none => s1

/-- Whole-process state of the standalone variant: the shared state plus the
per-connection `clientId` constants captured by the handler closures. -/
structure SrvWorld : Type where
  st : SrvState
  tempIds : List (Nat × String)
  deriving DecidableEq, Repr

/-- Whole-process state of the database variant: the shared state plus the
per-connection `connectedAgentId` variables of the handler closures. -/
structure DbWorld : Type where
  st : DbState
  sessions : List (Nat × Option String)
  deriving DecidableEq, Repr

/-- Externally visible events driving the standalone variant: a socket is
accepted (at clock value `now`), a frame arrives on a socket (`none` if
unparsable), or a socket closes. -/
inductive SrvEv : Type where
  | connect (ws : Nat) (now : Nat)
  | msg (ws : Nat) (m : Option Msg)
  | close (ws : Nat)
  deriving DecidableEq, Repr

/-- Externally visible events driving the database variant. -/
inductive DbEv : Type where
  | connect (ws : Nat)
  | msg (ws : Nat) (m : Option Msg)
  | close (ws : Nat)
  deriving DecidableEq, Repr

/-- One event step of the standalone variant.  Frames or closes on a socket
that was never accepted have no handler and are ignored. -/
def srvStep (w : SrvWorld) (e : SrvEv) : SrvWorld × List (Nat × OutMsg) :=
  match e with
  | SrvEv.connect ws now =>
    let r := srvOnConnect w.st ws now
    ({ st := r.1, tempIds := jsSet w.tempIds ws (clientIdOf now) }, r.2)
  | SrvEv.msg ws m =>
    match jsGet w.tempIds ws with
    | some clientId =>
      let r := srvOnMessage w.st ws clientId m
      ({ w with st := r.1 }, r.2)
    | none => (w, [])
  | SrvEv.close ws =>
    match jsGet w.tempIds ws with
    | some _ => ({ w with st := srvOnClose w.st ws }, [])
    | none => (w, [])

/-- One event step of the database variant. -/
def dbStep (w : DbWorld) (e : DbEv) : DbWorld × List (Nat × OutMsg) :=
  match e with
  | DbEv.connect ws =>
    ({ st := { w.st with openConns := ws :: w.st.openConns },
       sessions := jsSet w.sessions ws none }, [])
  | DbEv.msg ws m =>
    match jsGet w.sessions ws with
    | some sess =>
      let r := dbOnMessage w.st ws sess m
      ({ st := r.1, sessions := jsSet w.sessions ws r.2.1 }, r.2.2)
    | none => (w, [])
  | DbEv.close ws =>
    match jsGet w.sessions ws with
    | some sess => ({ w with st := dbOnClose w.st ws sess }, [])
    | none => (w, [])

/-- Run the standalone variant over a list of events (final state only). -/
def srvRun (w : SrvWorld) : List SrvEv → SrvWorld
  | [] => w
  | e :: es => srvRun (srvStep w e).1 es

/-- Run the database variant over a list of events (final state only). -/
def dbRun (w : DbWorld) : List DbEv → DbWorld
  | [] => w
  | e :: es => dbRun (dbStep w e).1 es

/-- Process start of the standalone variant: empty `clients` map, nothing
connected. -/
def srvInit : SrvWorld := { st := { clients := [], openConns := [] }, tempIds := [] }

/-- Process start of the database variant: empty `activeConnections` map,
nothing connected. -/
def dbInit : DbWorld := { st := { activeConnections := [], openConns := [] }, sessions := [] }

/-- Scenario: agent id `"A"` is registered on socket 1, then re-registered on
socket 2, then socket 1 closes (the canonical supersede-then-stale-close
sequence), run against the database variant. -/
def staleCloseTrace : List DbEv :=
  [DbEv.connect 1, DbEv.msg 1 (some (Msg.register "A")),
   DbEv.connect 2, DbEv.msg 2 (some (Msg.register "A")),
   DbEv.close 1]

/-- Scenario: socket 1 is accepted at clock value 5, registers `"A"`, then
re-registers `"B"`, run against the standalone variant. -/
def reRegTrace : List SrvEv :=
  [SrvEv.connect 1 5, SrvEv.msg 1 (some (Msg.register "A")),
   SrvEv.msg 1 (some (Msg.register "B"))]

/-- Scenario: `reRegTrace` followed by socket 1 closing. -/
def reRegCloseTrace : List SrvEv :=
  [SrvEv.connect 1 5, SrvEv.msg 1 (some (Msg.register "A")),
   SrvEv.msg 1 (some (Msg.register "B")), SrvEv.close 1]

/-- Scenario: socket 1 is accepted at clock value 5 and closes without ever
registering, run against the standalone variant. -/
def connectCloseTrace : List SrvEv := [SrvEv.connect 1 5, SrvEv.close 1]

/-- Scenario: socket 1 is accepted at clock value 5 and nothing else
happens. -/
def connectOnlyTrace : List SrvEv := [SrvEv.connect 1 5]

/-! ## Association-list lemmas for the `Map` model -/

theorem jsGet_jsSet_self {α β : Type} [DecidableEq α] (m : List (α × β)) (k : α) (v : β) :
    jsGet (jsSet m k v) k = some v := by
  induction m with
  | nil => simp [jsSet, jsGet]
  | cons p rest ih =>
    obtain ⟨k0, v0⟩ := p
    by_cases h : k0 = k
    · simp [jsSet, jsGet, h]
    · simp [jsSet, jsGet, h, ih]

theorem jsGet_jsSet_ne {α β : Type} [DecidableEq α] (m : List (α × β)) (k k2 : α) (v : β)
    (h : k2 ≠ k) : jsGet (jsSet m k v) k2 = jsGet m k2 := by
  induction m with
  | nil => simp [jsSet, jsGet, Ne.symm h]
  | cons p rest ih =>
    obtain ⟨k0, v0⟩ := p
    by_cases h0 : k0 = k
    · subst h0
      simp [jsSet, jsGet, Ne.symm h]
    · simp [jsSet, jsGet, h0, ih]

theorem jsGet_jsDelete_ne {α β : Type} [DecidableEq α] (m : List (α × β)) (k k2 : α)
    (h : k2 ≠ k) : jsGet (jsDelete m k) k2 = jsGet m k2 := by
  induction m with
  | nil => simp [jsDelete]
  | cons p rest ih =>
    obtain ⟨k0, v0⟩ := p
    by_cases h0 : k0 = k
    · subst h0
      simp [jsDelete, jsGet, Ne.symm h, ih]
    · simp [jsDelete, jsGet, h0, ih]

theorem jsGet_eraseFirstByValue {α β : Type} [DecidableEq α] [DecidableEq β]
    (m : List (α × β)) (k : α) (v c : β) (hget : jsGet m k = some v) (hne : v ≠ c) :
    jsGet (eraseFirstByValue m c) k = some v := by
  induction m with
  | nil => simp [jsGet] at hget
  | cons p rest ih =>
    obtain ⟨k0, v0⟩ := p
    by_cases h0 : k0 = k
    · subst h0
      simp only [jsGet, if_pos rfl, reduceIte, Option.some.injEq] at hget
      subst hget
      simp [eraseFirstByValue, hne, jsGet]
    · simp only [jsGet, if_neg h0] at hget
      by_cases hv : v0 = c
      · simpa [eraseFirstByValue, hv, jsGet, h0] using hget
      · simp [eraseFirstByValue, hv, jsGet, h0, ih hget]

theorem mem_keys_jsSet {α β : Type} [DecidableEq α] (m : List (α × β)) (k a : α) (v : β)
    (h : a ∈ (jsSet m k v).map Prod.fst) : a = k ∨ a ∈ m.map Prod.fst := by
  induction m with
  | nil => simpa [jsSet] using h
  | cons p rest ih =>
    obtain ⟨k0, v0⟩ := p
    by_cases h0 : k0 = k
    · subst h0
      simpa [jsSet] using h
    · simp only [jsSet, if_neg h0, List.map_cons, List.mem_cons] at h
      rcases h with h | h
      · simp [h]
      · rcases ih h with h | h
        · exact Or.inl h
        · exact Or.inr (by simp [h])

theorem nodup_keys_jsSet {α β : Type} [DecidableEq α] (m : List (α × β)) (k : α) (v : β)
    (h : (m.map Prod.fst).Nodup) : ((jsSet m k v).map Prod.fst).Nodup := by
  induction m with
  | nil => simp [jsSet]
  | cons p rest ih =>
    obtain ⟨k0, v0⟩ := p
    simp only [List.map_cons, List.nodup_cons] at h
    by_cases h0 : k0 = k
    · subst h0
      simpa [jsSet] using h
    · simp only [jsSet, if_neg h0, List.map_cons, List.nodup_cons]
      refine ⟨fun hmem => ?_, ih h.2⟩
      rcases mem_keys_jsSet rest k k0 v hmem with h1 | h1
      · exact h0 h1
      · exact h.1 h1

theorem jsDelete_sublist {α β : Type} [DecidableEq α] (m : List (α × β)) (k : α) :
    List.Sublist (jsDelete m k) m := by
  induction m with
  | nil => simp [jsDelete]
  | cons p rest ih =>
    obtain ⟨k0, v0⟩ := p
    by_cases h0 : k0 = k
    · simpa [jsDelete, h0] using ih.trans (List.sublist_cons_self _ _)
    · simpa [jsDelete, h0] using ih.cons₂ (k0, v0)

theorem eraseFirstByValue_sublist {α β : Type} [DecidableEq β] (m : List (α × β)) (c : β) :
    List.Sublist (eraseFirstByValue m c) m := by
  induction m with
  | nil => simp [eraseFirstByValue]
  | cons p rest ih =>
    obtain ⟨k0, v0⟩ := p
    by_cases h0 : v0 = c
    · simp [eraseFirstByValue, h0]
    · simpa [eraseFirstByValue, h0] using ih.cons₂ (k0, v0)

theorem nodup_keys_jsDelete {α β : Type} [DecidableEq α] (m : List (α × β)) (k : α)
    (h : (m.map Prod.fst).Nodup) : ((jsDelete m k).map Prod.fst).Nodup :=
  h.sublist ((jsDelete_sublist m k).map Prod.fst)

theorem nodup_keys_eraseFirstByValue {α β : Type} [DecidableEq α] [DecidableEq β]
    (m : List (α × β)) (c : β) (h : (m.map Prod.fst).Nodup) :
    ((eraseFirstByValue m c).map Prod.fst).Nodup :=
  h.sublist ((eraseFirstByValue_sublist m c).map Prod.fst)

theorem not_mem_keys_jsDelete_self {α β : Type} [DecidableEq α] (m : List (α × β)) (k : α) :
    k ∉ (jsDelete m k).map Prod.fst := by
  induction m with
  | nil => simp [jsDelete]
  | cons p rest ih =>
    obtain ⟨k0, v0⟩ := p
    by_cases h0 : k0 = k
    · simpa [jsDelete, h0] using ih
    · simp only [jsDelete, if_neg h0, List.map_cons, List.mem_cons]
      push_neg
      exact ⟨fun hh => h0 hh.symm, ih⟩

theorem jsDelete_of_not_mem_keys {α β : Type} [DecidableEq α] (m : List (α × β)) (k : α)
    (h : k ∉ m.map Prod.fst) : jsDelete m k = m := by
  induction m with
  | nil => simp [jsDelete]
  | cons p rest ih =>
    obtain ⟨k0, v0⟩ := p
    simp only [List.map_cons, List.mem_cons] at h
    push_neg at h
    simp [jsDelete, Ne.symm h.1, ih h.2]

theorem jsSet_of_not_mem_keys {α β : Type} [DecidableEq α] (m : List (α × β)) (k : α) (v : β)
    (h : k ∉ m.map Prod.fst) : jsSet m k v = m ++ [(k, v)] := by
  induction m with
  | nil => simp [jsSet]
  | cons p rest ih =>
    obtain ⟨k0, v0⟩ := p
    simp only [List.map_cons, List.mem_cons] at h
    push_neg at h
    simp [jsSet, Ne.symm h.1, ih h.2]

theorem jsSet_of_jsGet_eq {α β : Type} [DecidableEq α] (m : List (α × β)) (k : α) (v : β)
    (h : jsGet m k = some v) : jsSet m k v = m := by
  induction m with
  | nil => simp [jsGet] at h
  | cons p rest ih =>
    obtain ⟨k0, v0⟩ := p
    by_cases h0 : k0 = k
    · subst h0
      simp only [jsGet, if_pos rfl, reduceIte, Option.some.injEq] at h
      simp [jsSet, h]
    · simp only [jsGet, if_neg h0] at h
      simp [jsSet, h0, ih h]

theorem filter_keys_of_not_mem {α β : Type} [DecidableEq α] (m : List (α × β)) (k : α)
    (h : k ∉ m.map Prod.fst) : m.filter (fun p => decide (p.1 = k)) = [] := by
  induction m with
  | nil => simp
  | cons p rest ih =>
    obtain ⟨k0, v0⟩ := p
    simp only [List.map_cons, List.mem_cons] at h
    push_neg at h
    simp [List.filter_cons, Ne.symm h.1, ih h.2]

theorem filter_keys_jsSet {α β : Type} [DecidableEq α] (m : List (α × β)) (k : α) (v : β)
    (h : (m.map Prod.fst).Nodup) :
    (jsSet m k v).filter (fun p => decide (p.1 = k)) = [(k, v)] := by
  induction m with
  | nil => simp [jsSet]
  | cons p rest ih =>
    obtain ⟨k0, v0⟩ := p
    simp only [List.map_cons, List.nodup_cons] at h
    by_cases h0 : k0 = k
    · subst h0
      simp [jsSet, List.filter_cons, filter_keys_of_not_mem rest k0 h.1]
    · simp [jsSet, h0, List.filter_cons, ih h.2]

theorem jsDelete_jsSet_self {α β : Type} [DecidableEq α] (m : List (α × β)) (k : α) (v : β) :
    jsDelete (jsSet m k v) k = jsDelete m k := by
  induction m with
  | nil => simp [jsSet, jsDelete]
  | cons p rest ih =>
    obtain ⟨k0, v0⟩ := p
    by_cases h0 : k0 = k
    · subst h0
      simp [jsSet, jsDelete]
    · simp [jsSet, jsDelete, h0, ih]

/-! ## Handler frame lemmas -/

theorem srvOnMessage_signal_fst (s : SrvState) (ws : Nat) (cid t f p : String) :
    (srvOnMessage s ws cid (some (Msg.signal t f p))).1 = s := by
  rcases hg : jsGet s.clients t with _ | tw
  · simp [srvOnMessage, hg]
  · simp only [srvOnMessage, hg]
    split <;> rfl

theorem dbOnMessage_signal_fst (s : DbState) (ws : Nat) (sess : Option String)
    (t f p : String) :
    (dbOnMessage s ws sess (some (Msg.signal t f p))).1 = s := by
  rcases hg : jsGet s.activeConnections t with _ | tw
  · simp [dbOnMessage, hg]
  · simp only [dbOnMessage, hg]
    split <;> rfl

/-- Every standalone event step keeps the registry keys pairwise distinct
(a JavaScript `Map` cannot hold two entries for one key). -/
theorem nodup_keys_srvStep (w : SrvWorld) (e : SrvEv)
    (h : (w.st.clients.map Prod.fst).Nodup) :
    ((srvStep w e).1.st.clients.map Prod.fst).Nodup := by
  cases e with
  | connect ws now =>
    simp only [srvStep, srvOnConnect]
    exact nodup_keys_jsSet _ _ _ h
  | msg ws m =>
    rcases hg : jsGet w.tempIds ws with _ | cid
    · simpa [srvStep, hg] using h
    · match m with
      | none => simpa [srvStep, hg, srvOnMessage] using h
      | some (Msg.register aid) =>
        simp only [srvStep, hg, srvOnMessage]
        exact nodup_keys_jsSet _ _ _ (nodup_keys_jsDelete _ _ h)
      | some (Msg.signal t f p) =>
        simpa [srvStep, hg, srvOnMessage_signal_fst] using h
      | some Msg.ping => simpa [srvStep, hg, srvOnMessage] using h
      | some Msg.other => simpa [srvStep, hg, srvOnMessage] using h
  | close ws =>
    rcases hg : jsGet w.tempIds ws with _ | cid
    · simpa [srvStep, hg] using h
    · simp only [srvStep, hg, srvOnClose]
      exact nodup_keys_eraseFirstByValue _ _ h

/-- Key distinctness of the standalone registry is preserved by whole runs. -/
theorem nodup_keys_srvRun (w : SrvWorld) (es : List SrvEv)
    (h : (w.st.clients.map Prod.fst).Nodup) :
    ((srvRun w es).st.clients.map Prod.fst).Nodup := by
  induction es generalizing w with
  | nil => simpa [srvRun] using h
  | cons e es ih =>
    rw [srvRun]
    exact ih _ (nodup_keys_srvStep w e h)

/-! ## Claim theorems -/

/-- C1, counterexample.  In the database variant the supersede-then-stale-close
scenario fails: after registering `"A"` on socket 1, re-registering `"A"` on
socket 2 and closing socket 1, the close handler has unconditionally deleted
the entry for `"A"`, so the lookup no longer resolves to socket 2 (which is
still open) — it returns nothing. -/
theorem db_stale_close_evicts_superseding :
    jsGet (dbRun dbInit staleCloseTrace).st.activeConnections "A" ≠ some 2
      ∧ jsGet (dbRun dbInit staleCloseTrace).st.activeConnections "A" = none
      ∧ (dbRun dbInit staleCloseTrace).st.openConns.contains 2 = true := by
  decide

/-- C1, amended.  In the standalone variant the scenario does hold: after
registering `"A"` on socket `x`, re-registering `"A"` on socket `y ≠ x` and
closing `x`, the registry still resolves `"A"` to `y` — the close-handler scan
only deletes an entry whose socket is `x`, and the `"A"` entry holds `y`. -/
theorem srv_supersede_then_stale_close (s : SrvState) (x y : Nat)
    (cx cy aid : String) (hxy : x ≠ y) :
    jsGet (srvOnClose ((srvOnMessage ((srvOnMessage s x cx
        (some (Msg.register aid))).1) y cy (some (Msg.register aid))).1) x).clients
      aid = some y := by
  simp only [srvOnMessage, srvOnClose]
  exact jsGet_eraseFirstByValue _ aid y x (jsGet_jsSet_self _ aid y) (Ne.symm hxy)

/-- C1, witness: the amended theorem at sockets 1 and 2. -/
theorem srv_supersede_then_stale_close_witness :
    jsGet (srvOnClose ((srvOnMessage ((srvOnMessage ⟨[], []⟩ 1 "10"
        (some (Msg.register "A"))).1) 2 "11" (some (Msg.register "A"))).1) 1).clients
      "A" = some 2 :=
  srv_supersede_then_stale_close ⟨[], []⟩ 1 2 "10" "11" "A" (by decide)

/-- C2, counterexample.  The standalone variant can retain an entry whose
socket is closed: socket 1 registers `"A"`, then `"B"` (the `"A"` entry stays
because `register` only deletes the temporary id), and on close the linear
scan deletes only the first matching entry, leaving `("B", 1)` in the registry
while socket 1 is no longer open. -/
theorem srv_close_leaves_stale_entry :
    (srvRun srvInit reRegCloseTrace).st.clients = [("B", 1)]
      ∧ (srvRun srvInit reRegCloseTrace).st.openConns.contains 1 = false := by
  decide

/-- C2, amended.  The half of the invariant that does hold: after every
standalone event sequence the registry never contains two entries for the
same id (its keys are pairwise distinct). -/
theorem srv_registry_keys_nodup (es : List SrvEv) :
    ((srvRun srvInit es).st.clients.map Prod.fst).Nodup :=
  nodup_keys_srvRun srvInit es (by simp [srvInit])

/-- C3, counterexample.  Registering `"A"` then `"B"` on socket 1 in the
standalone variant does not remove the `"A"` entry: the `register` case
deletes only the connection's temporary id, so `lookup "A"` still returns
socket 1 instead of nothing. -/
theorem srv_reregister_leaves_old_entry :
    jsGet (srvRun srvInit reRegTrace).st.clients "A" = some 1
      ∧ jsGet (srvRun srvInit reRegTrace).st.clients "A" ≠ none := by
  decide

/-- C3, amended.  In both variants, re-registering a different id on the same
connection leaves the old entry in place: afterwards the lookup of the old id
and of the new id both return this connection (in the standalone variant,
provided the old id is not the connection's temporary id, which `register`
deletes). -/
theorem reregister_keeps_old_binding (s : SrvState) (d : DbState) (c cd : Nat)
    (cid id1 id2 : String) (sd : Option String)
    (h12 : id1 ≠ id2) (h1c : id1 ≠ cid) :
    jsGet ((srvOnMessage ((srvOnMessage s c cid (some (Msg.register id1))).1) c cid
        (some (Msg.register id2))).1).clients id1 = some c
    ∧ jsGet ((srvOnMessage ((srvOnMessage s c cid (some (Msg.register id1))).1) c cid
        (some (Msg.register id2))).1).clients id2 = some c
    ∧ jsGet ((dbOnMessage ((dbOnMessage d cd sd (some (Msg.register id1))).1) cd (some id1)
        (some (Msg.register id2))).1).activeConnections id1 = some cd
    ∧ jsGet ((dbOnMessage ((dbOnMessage d cd sd (some (Msg.register id1))).1) cd (some id1)
        (some (Msg.register id2))).1).activeConnections id2 = some cd := by
  refine ⟨?_, ?_, ?_, ?_⟩
  · simp only [srvOnMessage]
    rw [jsGet_jsSet_ne _ _ _ _ h12, jsGet_jsDelete_ne _ _ _ h1c, jsGet_jsSet_self]
  · simp only [srvOnMessage]
    rw [jsGet_jsSet_self]
  · simp only [dbOnMessage]
    rw [jsGet_jsSet_ne _ _ _ _ h12, jsGet_jsSet_self]
  · simp only [dbOnMessage]
    rw [jsGet_jsSet_self]

/-- C3, witness: the amended theorem at socket 1, temporary id `"5"`, old id
`"A"`, new id `"B"`. -/
theorem reregister_keeps_old_binding_witness :
    jsGet ((srvOnMessage ((srvOnMessage ⟨[], []⟩ 1 "5" (some (Msg.register "A"))).1) 1 "5"
        (some (Msg.register "B"))).1).clients "A" = some 1
    ∧ jsGet ((srvOnMessage ((srvOnMessage ⟨[], []⟩ 1 "5" (some (Msg.register "A"))).1) 1 "5"
        (some (Msg.register "B"))).1).clients "B" = some 1
    ∧ jsGet ((dbOnMessage ((dbOnMessage ⟨[], []⟩ 1 none (some (Msg.register "A"))).1) 1
        (some "A") (some (Msg.register "B"))).1).activeConnections "A" = some 1
    ∧ jsGet ((dbOnMessage ((dbOnMessage ⟨[], []⟩ 1 none (some (Msg.register "A"))).1) 1
        (some "A") (some (Msg.register "B"))).1).activeConnections "B" = some 1 :=
  reregister_keeps_old_binding ⟨[], []⟩ ⟨[], []⟩ 1 1 "5" "A" "B" none (by decide) (by decide)

/-- C4, counterexample.  In the database variant an unroutable signal produces
no reply at all: with an empty registry, a signal from socket 1 to target
`"B"` sends zero messages (the failure is only logged), not exactly one
error-typed reply to the sender. -/
theorem db_unroutable_signal_no_reply :
    (dbOnMessage ⟨[], [1]⟩ 1 none (some (Msg.signal "B" "me" "p"))).2.2 = []
      ∧ (1, OutMsg.errorReply) ∉
        (dbOnMessage ⟨[], [1]⟩ 1 none (some (Msg.signal "B" "me" "p"))).2.2 := by
  decide

/-- C4, amended.  If the target id is unbound, or bound to a socket that is
not open, then: in the standalone variant the sender receives exactly one
error reply, nothing is delivered anywhere else, and the whole state (hence
the registry) is unchanged; in the database variant nothing at all is sent
(the failure is only logged) and the state and session are unchanged. -/
theorem unroutable_signal_behavior (s : SrvState) (d : DbState) (c cd : Nat)
    (cid target fromId payload : String) (sess : Option String)
    (hs : ∀ t, jsGet s.clients target = some t → s.openConns.contains t = false)
    (hd : ∀ t, jsGet d.activeConnections target = some t →
      d.openConns.contains t = false) :
    srvOnMessage s c cid (some (Msg.signal target fromId payload))
      = (s, [(c, OutMsg.errorReply)])
    ∧ dbOnMessage d cd sess (some (Msg.signal target fromId payload))
      = (d, sess, []) := by
  constructor
  · rcases hg : jsGet s.clients target with _ | tw
    · simp [srvOnMessage, hg]
    · have hm : tw ∉ s.openConns := by simpa using hs tw hg
      simp [srvOnMessage, hg, hm]
  · rcases hg : jsGet d.activeConnections target with _ | tw
    · simp [dbOnMessage, hg]
    · have hm : tw ∉ d.openConns := by simpa using hd tw hg
      simp [dbOnMessage, hg, hm]

/-- C4, witness: the amended theorem with an empty registry in both
variants. -/
theorem unroutable_signal_behavior_witness :
    srvOnMessage ⟨[], []⟩ 1 "5" (some (Msg.signal "B" "me" "p"))
      = (⟨[], []⟩, [(1, OutMsg.errorReply)])
    ∧ dbOnMessage ⟨[], []⟩ 1 none (some (Msg.signal "B" "me" "p"))
      = (⟨[], []⟩, none, []) :=
  unroutable_signal_behavior ⟨[], []⟩ ⟨[], []⟩ 1 1 "5" "B" "me" "p" none
    (fun t h => by simp [jsGet] at h) (fun t h => by simp [jsGet] at h)

/-- C5, confirmed.  While the target id is bound to an open socket, a signal
message is delivered to exactly that socket, as exactly one `signal` message
carrying the incoming payload and the incoming origin field (both variants
take `from` verbatim from the message body), and the state is unchanged —
so each repetition of the call again delivers exactly one such message. -/
theorem routable_signal_delivers (s : SrvState) (d : DbState) (c cd t td : Nat)
    (cid target fromId payload : String) (sess : Option String)
    (hs : jsGet s.clients target = some t) (hso : s.openConns.contains t = true)
    (hd : jsGet d.activeConnections target = some td)
    (hdo : d.openConns.contains td = true) :
    srvOnMessage s c cid (some (Msg.signal target fromId payload))
      = (s, [(t, OutMsg.signalFwd fromId payload)])
    ∧ dbOnMessage d cd sess (some (Msg.signal target fromId payload))
      = (d, sess, [(td, OutMsg.signalFwd fromId payload)]) := by
  constructor
  · have hm : t ∈ s.openConns := by simpa using hso
    simp [srvOnMessage, hs, hm]
  · have hm : td ∈ d.openConns := by simpa using hdo
    simp [dbOnMessage, hd, hm]

/-- C5, witness: target `"B"` bound to open socket 2 in both variants. -/
theorem routable_signal_delivers_witness :
    srvOnMessage ⟨[("B", 2)], [2]⟩ 1 "5" (some (Msg.signal "B" "me" "p"))
      = (⟨[("B", 2)], [2]⟩, [(2, OutMsg.signalFwd "me" "p")])
    ∧ dbOnMessage ⟨[("B", 2)], [2]⟩ 1 none (some (Msg.signal "B" "me" "p"))
      = (⟨[("B", 2)], [2]⟩, none, [(2, OutMsg.signalFwd "me" "p")]) :=
  routable_signal_delivers ⟨[("B", 2)], [2]⟩ ⟨[("B", 2)], [2]⟩ 1 1 2 2 "5" "B" "me" "p"
    none (by decide) (by decide) (by decide) (by decide)

/-- C6, confirmed.  An unparsable frame (the `JSON.parse` exception is caught)
or a frame with an unknown `type` (no `switch` case matches) leaves the
shared state and the session untouched and sends no reply, in both variants;
in particular the socket stays open (`openConns` is part of the unchanged
state) and the message loop raises nothing. -/
theorem malformed_frame_ignored (s : SrvState) (d : DbState) (c cd : Nat)
    (cid : String) (sess : Option String) :
    srvOnMessage s c cid none = (s, [])
    ∧ srvOnMessage s c cid (some Msg.other) = (s, [])
    ∧ dbOnMessage d cd sess none = (d, sess, [])
    ∧ dbOnMessage d cd sess (some Msg.other) = (d, sess, []) :=
  ⟨rfl, rfl, rfl, rfl⟩

/-- C7, confirmed.  Registering the same id twice in a row on the same
connection is idempotent on the shared state: the second `register` leaves the
state exactly as after the first, and (when the registry keys are distinct,
which `srv_registry_keys_nodup` guarantees for reachable states) the registry
holds exactly one entry for that id, bound to this socket — in both
variants. -/
theorem reregister_same_id_idempotent (s : SrvState) (d : DbState) (c cd : Nat)
    (cid aid : String) (sd : Option String)
    (hs : (s.clients.map Prod.fst).Nodup)
    (hd : (d.activeConnections.map Prod.fst).Nodup) :
    (srvOnMessage ((srvOnMessage s c cid (some (Msg.register aid))).1) c cid
        (some (Msg.register aid))).1
      = (srvOnMessage s c cid (some (Msg.register aid))).1
    ∧ ((srvOnMessage ((srvOnMessage s c cid (some (Msg.register aid))).1) c cid
        (some (Msg.register aid))).1).clients.filter (fun p => decide (p.1 = aid))
      = [(aid, c)]
    ∧ (dbOnMessage ((dbOnMessage d cd sd (some (Msg.register aid))).1) cd (some aid)
        (some (Msg.register aid))).1
      = (dbOnMessage d cd sd (some (Msg.register aid))).1
    ∧ ((dbOnMessage ((dbOnMessage d cd sd (some (Msg.register aid))).1) cd (some aid)
        (some (Msg.register aid))).1).activeConnections.filter
          (fun p => decide (p.1 = aid))
      = [(aid, cd)] := by
  have key : jsSet (jsDelete (jsSet (jsDelete s.clients cid) aid c) cid) aid c
      = jsSet (jsDelete s.clients cid) aid c := by
    by_cases hca : cid = aid
    · subst hca
      rw [jsDelete_jsSet_self,
        jsDelete_of_not_mem_keys _ _ (not_mem_keys_jsDelete_self s.clients cid)]
    · have hnm : cid ∉ (jsSet (jsDelete s.clients cid) aid c).map Prod.fst := by
        intro hmem
        rcases mem_keys_jsSet _ _ _ _ hmem with h | h
        · exact hca h
        · exact not_mem_keys_jsDelete_self s.clients cid h
      rw [jsDelete_of_not_mem_keys _ _ hnm]
      exact jsSet_of_jsGet_eq _ _ _ (jsGet_jsSet_self _ _ _)
  refine ⟨?_, ?_, ?_, ?_⟩
  · simp only [srvOnMessage]
    rw [key]
  · simp only [srvOnMessage]
    exact filter_keys_jsSet _ _ _
      (nodup_keys_jsDelete _ _ (nodup_keys_jsSet _ _ _ (nodup_keys_jsDelete _ _ hs)))
  · simp only [dbOnMessage]
    rw [jsSet_of_jsGet_eq _ _ _ (jsGet_jsSet_self d.activeConnections aid cd)]
  · simp only [dbOnMessage]
    exact filter_keys_jsSet _ _ _ (nodup_keys_jsSet _ _ _ hd)

/-- C7, witness: the theorem at socket 1, temporary id `"5"`, agent id
`"A"`, empty initial registries. -/
theorem reregister_same_id_idempotent_witness :
    (srvOnMessage ((srvOnMessage ⟨[], []⟩ 1 "5" (some (Msg.register "A"))).1) 1 "5"
        (some (Msg.register "A"))).1
      = (srvOnMessage ⟨[], []⟩ 1 "5" (some (Msg.register "A"))).1
    ∧ ((srvOnMessage ((srvOnMessage ⟨[], []⟩ 1 "5" (some (Msg.register "A"))).1) 1 "5"
        (some (Msg.register "A"))).1).clients.filter (fun p => decide (p.1 = "A"))
      = [("A", 1)]
    ∧ (dbOnMessage ((dbOnMessage ⟨[], []⟩ 1 none (some (Msg.register "A"))).1) 1
        (some "A") (some (Msg.register "A"))).1
      = (dbOnMessage ⟨[], []⟩ 1 none (some (Msg.register "A"))).1
    ∧ ((dbOnMessage ((dbOnMessage ⟨[], []⟩ 1 none (some (Msg.register "A"))).1) 1
        (some "A") (some (Msg.register "A"))).1).activeConnections.filter
          (fun p => decide (p.1 = "A"))
      = [("A", 1)] :=
  reregister_same_id_idempotent ⟨[], []⟩ ⟨[], []⟩ 1 1 "5" "A" none
    (by decide) (by decide)

/-- C8, counterexample.  In the standalone variant a connection that never
registered is nonetheless bound under its temporary id, so its close handler
does mutate the registry: after accepting socket 1 at clock value 5 the
registry holds `("5", 1)`, and after the close it is empty. -/
theorem srv_close_unregistered_mutates :
    (srvRun srvInit connectOnlyTrace).st.clients = [("5", 1)]
      ∧ (srvRun srvInit connectCloseTrace).st.clients = []
      ∧ (srvRun srvInit connectCloseTrace).st.clients
        ≠ (srvRun srvInit connectOnlyTrace).st.clients := by
  decide

/-- C8, amended.  The claim holds in the database variant: closing a
connection whose `connectedAgentId` was never set leaves `activeConnections`
exactly as it was, and no error is raised (the handler is a total function).
In the standalone variant the close instead removes the connection's
temporary-id entry (see the counterexample). -/
theorem db_close_unregistered_no_mutation (d : DbState) (c : Nat) :
    (dbOnClose d c none).activeConnections = d.activeConnections := rfl

/-- C9, confirmed.  In the standalone variant an accepted socket is
immediately bound in the registry under the temporary id derived from the
clock, exactly one `connected` message carrying that id is sent to it, and a
signal from any other socket targeting the temporary id is forwarded to the
new socket — an unregistered client is already routable. -/
theorem srv_connect_binds_tempid (s : SrvState) (c c2 : Nat)
    (cid2 fromId payload : String) (now : Nat) :
    (srvOnConnect s c now).2 = [(c, OutMsg.connected (clientIdOf now))]
    ∧ jsGet (srvOnConnect s c now).1.clients (clientIdOf now) = some c
    ∧ srvOnMessage (srvOnConnect s c now).1 c2 cid2
        (some (Msg.signal (clientIdOf now) fromId payload))
      = ((srvOnConnect s c now).1, [(c, OutMsg.signalFwd fromId payload)]) := by
  have hg : jsGet (srvOnConnect s c now).1.clients (clientIdOf now) = some c :=
    jsGet_jsSet_self _ _ _
  have hm : c ∈ (srvOnConnect s c now).1.openConns := by
    simp [srvOnConnect]
  exact ⟨rfl, hg, by simp [srvOnMessage, hg, hm]⟩

/-- C10, confirmed.  Temporary ids are derived from the clock value alone
(`clientIdOf`), so two sockets accepted at the same clock value collide: the
second accept overwrites the first socket's registry entry, while the first
socket remains open and is no longer routable under that id — a signal to the
shared temporary id is delivered to the second socket. -/
theorem srv_tempid_collision (s : SrvState) (c1 c2 c3 : Nat)
    (cid3 fromId payload : String) (now : Nat) (h : c1 ≠ c2) :
    jsGet ((srvOnConnect ((srvOnConnect s c1 now).1) c2 now).1).clients (clientIdOf now)
      = some c2
    ∧ jsGet ((srvOnConnect ((srvOnConnect s c1 now).1) c2 now).1).clients (clientIdOf now)
      ≠ some c1
    ∧ ((srvOnConnect ((srvOnConnect s c1 now).1) c2 now).1).openConns.contains c1 = true
    ∧ srvOnMessage ((srvOnConnect ((srvOnConnect s c1 now).1) c2 now).1) c3 cid3
        (some (Msg.signal (clientIdOf now) fromId payload))
      = ((srvOnConnect ((srvOnConnect s c1 now).1) c2 now).1,
         [(c2, OutMsg.signalFwd fromId payload)]) := by
  have hg : jsGet ((srvOnConnect ((srvOnConnect s c1 now).1) c2 now).1).clients
      (clientIdOf now) = some c2 := jsGet_jsSet_self _ _ _
  have hmem : c1 ∈ ((srvOnConnect ((srvOnConnect s c1 now).1) c2 now).1).openConns := by
    simp [srvOnConnect]
  have hmem2 : c2 ∈ ((srvOnConnect ((srvOnConnect s c1 now).1) c2 now).1).openConns := by
    simp [srvOnConnect]
  refine ⟨hg, ?_, ?_, ?_⟩
  · rw [hg]
    intro hc
    exact h (Option.some.inj hc).symm
  · simpa using hmem
  · simp [srvOnMessage, hg, hmem2]

/-- C10, witness: two sockets accepted at clock value 7. -/
theorem srv_tempid_collision_witness :
    jsGet ((srvOnConnect ((srvOnConnect ⟨[], []⟩ 1 7).1) 2 7).1).clients (clientIdOf 7)
      = some 2
    ∧ jsGet ((srvOnConnect ((srvOnConnect ⟨[], []⟩ 1 7).1) 2 7).1).clients (clientIdOf 7)
      ≠ some 1
    ∧ ((srvOnConnect ((srvOnConnect ⟨[], []⟩ 1 7).1) 2 7).1).openConns.contains 1 = true
    ∧ srvOnMessage ((srvOnConnect ((srvOnConnect ⟨[], []⟩ 1 7).1) 2 7).1) 3 "9"
        (some (Msg.signal (clientIdOf 7) "me" "p"))
      = ((srvOnConnect ((srvOnConnect ⟨[], []⟩ 1 7).1) 2 7).1,
         [(2, OutMsg.signalFwd "me" "p")]) :=
  srv_tempid_collision ⟨[], []⟩ 1 2 3 "9" "me" "p" 7 (by decide)

end Signaling
